import Mathlib

/-!
Verification of the douying repository's core pipeline (the Vite middleware in
`启动平台.command`): the Douyin session manager, the SSRF guard, the account
video listing, the caption task registry, and the Doubao flash ASR adapter.

The definitions below are shallow embeddings of the TypeScript source.  Machine
integers are modelled as `Nat`/`Int`, JavaScript string built-ins (`trim`,
`toLowerCase`, `Number(...)`, WHATWG `new URL`) are modelled by executable
character-list functions restricted to the fragments the code exercises, and
fallible code returns `Except`.
-/

deriving instance DecidableEq for Except

namespace Douying

/-! ### JavaScript string primitives, modelled over character lists -/

/-- Whitespace characters stripped by `String.prototype.trim` (ASCII fragment:
space, tab, LF, VT, FF, CR). -/
def jsIsWhitespace (c : Char) : Bool :=
  c = ' ' || (9 ≤ c.toNat && c.toNat ≤ 13)

/-- Strip leading and trailing whitespace from a character list. -/
def trimChars (cs : List Char) : List Char :=
  ((cs.dropWhile jsIsWhitespace).reverse.dropWhile jsIsWhitespace).reverse

/-- Model of JavaScript `s.trim()`. -/
def jsTrim (s : String) : String := String.mk (trimChars s.data)

/-- Model of JavaScript `s.toLowerCase()` (ASCII fragment; the hostnames and
schemes the code compares are ASCII). -/
def lowerStr (s : String) : String := String.mk (s.data.map Char.toLower)

/-- Model of JavaScript `s.endsWith(suffix)`. -/
def strEndsWith (s suffix : String) : Bool :=
  List.isSuffixOf suffix.data s.data

/-- Numeric value of a list of decimal digit characters. -/
def digitsVal (cs : List Char) : Nat :=
  cs.foldl (fun acc c => acc * 10 + (c.toNat - 48)) 0

/-- Model of JavaScript `Number(s)` restricted to optionally signed decimal
integers (the shape of the `X-Api-Status-Code` header): `none` models `NaN`,
the empty / all-whitespace string converts to `0`, anything non-decimal is
`NaN`. -/
def jsNumber (s : String) : Option Int :=
  match trimChars s.data with
  | [] => some 0
  | '-' :: ds =>
    if !ds.isEmpty && ds.all Char.isDigit then some (-(Int.ofNat (digitsVal ds))) else none
  | '+' :: ds =>
    if !ds.isEmpty && ds.all Char.isDigit then some (Int.ofNat (digitsVal ds)) else none
  | ds =>
    if ds.all Char.isDigit then some (Int.ofNat (digitsVal ds)) else none

/-- JavaScript `a || b` on strings: the empty string is falsy. -/
def jsOrStr (a b : String) : String := if a = "" then b else a

/-! ### WHATWG URL model (fragment used by the middleware)

`new URL(s)` is modelled for absolute URLs of the shape
`scheme://host[:port][/path...]`; IPv6 bracket hosts and userinfo are outside
the modelled fragment (`none` = the constructor throws).  Unlike WHATWG, the
model does not case-normalize `protocol`/`hostname`; the safety guard below
lowercases both itself, exactly as the source does, so accept/reject behaviour
is unaffected. -/

structure JsUrl where
  protocol : String
  hostname : String
  pathname : String
deriving DecidableEq

/-- Split a character list at the first occurrence of `sep`, dropping `sep`. -/
def splitAtSubstring (sep : List Char) : List Char → Option (List Char × List Char)
  | [] => none
  | c :: cs =>
    if sep.isPrefixOf (c :: cs) then some ([], (c :: cs).drop sep.length)
    else
      match splitAtSubstring sep cs with
      | some (pre, post) => some (c :: pre, post)
      | none => none

def isSchemeChar (c : Char) : Bool :=
  c.isAlpha || c.isDigit || c = '+' || c = '-' || c = '.'

/-- Model of `new URL(s)` on the fragment described above. -/
def parseJsUrl (s : String) : Option JsUrl :=
  match splitAtSubstring "://".data s.data with
  | none => none
  | some (schemeCs, rest) =>
    if schemeCs.isEmpty || !(schemeCs.all isSchemeChar) || !(schemeCs.headD 'a').isAlpha then
      none
    else
      let authority := rest.takeWhile (fun c => !(c = '/' || c = '?' || c = '#'))
      let afterAuth := rest.drop authority.length
      let host := authority.takeWhile (fun c => !(c = ':'))
      if host.isEmpty then none
      else
        some
          { protocol := String.mk schemeCs ++ ":"
            hostname := String.mk host
            pathname :=
              if afterAuth.isEmpty then "/"
              else String.mk (afterAuth.takeWhile (fun c => !(c = '?' || c = '#'))) }

/-- `true` on `Except.ok`, `false` on `Except.error` (i.e. "did not throw"). -/
def isOkE {ε α : Type} : Except ε α → Bool
  | .ok _ => true
  | .error _ => false

/-- Embedding of `assertSafeExternalHttpUrl` (启动平台.command lines 203-225):
throws on unparsable URLs, non-http(s) schemes, and the fixed hostname
blocklist `localhost` / `0.0.0.0` / `127.0.0.1` / `::1` / `*.local`. -/
def assertSafeExternalHttpUrl (url : String) : Except String JsUrl :=
  match parseJsUrl url with
  | none => .error "链接格式错误"
  | some parsed =>
    let protocol := lowerStr parsed.protocol
    if protocol ≠ "http:" ∧ protocol ≠ "https:" then
      .error "仅支持 http/https 链接"
    else
      let host := lowerStr parsed.hostname
      if host = "localhost" ∨ host = "0.0.0.0" ∨ host = "127.0.0.1" ∨ host = "::1" ∨
          strEndsWith host ".local" = true then
        .error "不安全的链接（可能为本机/内网地址）"
      else
        .ok parsed

example : parseJsUrl "http://127.0.0.1/x" =
    some { protocol := "http:", hostname := "127.0.0.1", pathname := "/x" } := by decide
example : isOkE (assertSafeExternalHttpUrl "http://127.0.0.1/x") = false := by decide
example : isOkE (assertSafeExternalHttpUrl "http://169.254.169.254/") = true := by decide
example : isOkE (assertSafeExternalHttpUrl "ftp://example.com/") = false := by decide
example : isOkE (assertSafeExternalHttpUrl "https://www.douyin.com/video/1") = true := by decide
example : isOkE (assertSafeExternalHttpUrl "http://foo.local/") = false := by decide
example : jsTrim "  你好 " = "你好" := by decide
example : jsNumber "45000001" = some 45000001 := by decide
example : jsNumber "" = some 0 := by decide
example : jsNumber "abc" = none := by decide

/-! ### SessionManager (`getDouyinWebSession`, lines 42-48 and 126-181)

The module-level mutable pair `douyinWebSession` / `douyinWebSessionLock` is
modelled by explicit state passing.  The refresh handshake itself performs
network I/O; its observable result (a cookie header and an expiry stamp) is
modelled with the cookie string as a parameter and the expiry computed exactly
as in the source (`Date.now() + 29 * 60 * 1000`). -/

structure DouyinWebSession where
  cookie : String
  expiresAt : Nat
deriving DecidableEq

/-- The 60-second safety margin (`expiresAt - 60_000` in the validity test). -/
def SESSION_MARGIN_MS : Nat := 60000

/-- `ttlMs = 29 * 60 * 1000` (line 159). -/
def SESSION_TTL_MS : Nat := 29 * 60 * 1000

/-- The cache-validity test on line 167: `Date.now() < expiresAt - 60_000`. -/
def sessionValid (s : DouyinWebSession) (now : Nat) : Bool :=
  decide (now < s.expiresAt - SESSION_MARGIN_MS)

/-- Observable result of `refreshDouyinWebSession` (lines 126-164): a cookie
header assembled from the handshake and `expiresAt = Date.now() + ttlMs`. -/
def refreshDouyinWebSession (now : Nat) (cookie : String) : DouyinWebSession :=
  { cookie := cookie, expiresAt := now + SESSION_TTL_MS }

/-- One sequential call to `getDouyinWebSession` (lines 166-181): returns the
cached session when still inside the validity window, otherwise refreshes.
Result: (session returned, cache afterwards, whether a handshake ran). -/
def getDouyinWebSessionStep (cache : Option DouyinWebSession) (now : Nat)
    (cookie : String) : DouyinWebSession × Option DouyinWebSession × Bool :=
  match cache with
  | some s =>
    if sessionValid s now then (s, some s, false)
    else
      let fresh := refreshDouyinWebSession now cookie
      (fresh, some fresh, true)
  | none =>
    let fresh := refreshDouyinWebSession now cookie
    (fresh, some fresh, true)

/-! Single-flight refresh.  A caller of `getDouyinWebSession` runs its
synchronous prefix atomically (JavaScript's event loop): check the cache, check
`douyinWebSessionLock`, and — when both miss — install the lock, which starts
the (single) handshake immediately.  `sfArrive` is that atomic prefix;
`sfComplete` is the resolution of the in-flight refresh. -/

structure SingleFlightState where
  session : Option DouyinWebSession
  lockHeld : Bool
  handshakes : Nat
deriving DecidableEq

/-- Cold cache: no session, no in-flight refresh, no handshake performed. -/
def sfCold : SingleFlightState := { session := none, lockHeld := false, handshakes := 0 }

def sessionCacheValid (cache : Option DouyinWebSession) (now : Nat) : Bool :=
  match cache with
  | some s => sessionValid s now
  | none => false

/-- Synchronous prefix of one concurrent `getDouyinWebSession()` call. -/
def sfArrive (now : Nat) (st : SingleFlightState) : SingleFlightState :=
  if sessionCacheValid st.session now then st
  else if st.lockHeld then st
  else { st with lockHeld := true, handshakes := st.handshakes + 1 }

/-- Resolution of the shared in-flight refresh: publish the fresh session and
clear the lock (the creator's `finally` block). -/
def sfComplete (now : Nat) (cookie : String) (st : SingleFlightState) : SingleFlightState :=
  if st.lockHeld then
    { session := some (refreshDouyinWebSession now cookie), lockHeld := false,
      handshakes := st.handshakes }
  else st

/-! ### `fetchUserVideos` (lines 478-592) -/

/-- Fields of one `aweme_list` entry that the mapping on lines 552-579 reads
and that the later filter/sort step consults: `item.aweme_id || item.awemeId`
(the empty string models a missing/falsy id) and
`stats.digg_count ?? stats.diggCount` (`none` models both absent, defaulted to
0).  The remaining metadata fields (desc, cover, play url, other counters) are
carried through unchanged by the source and do not influence filtering,
ordering or truncation. -/
structure RawAweme where
  awemeId : String
  diggCount : Option Int
deriving DecidableEq

structure UserVideoItem where
  awemeId : String
  diggCount : Int
deriving DecidableEq

/-- The per-item mapping (lines 552-579, restricted as described above). -/
def parseUserVideo (r : RawAweme) : UserVideoItem :=
  { awemeId := r.awemeId, diggCount := r.diggCount.getD 0 }

/-- Outcome of one listing HTTP call, as discriminated by the source:
`!res.ok` (line 510), JSON parse failure (line 523), bad payload —
`!data || data.status_code !== 0 || !Array.isArray(data.aweme_list)`
(line 532) — or a parsed `aweme_list`. -/
inductive ListingOutcome where
  | httpError (status : Nat)
  | parseError
  | badPayload
  | gotList (items : List RawAweme)
deriving DecidableEq

/-- Descending order on like count, the sort key of line 582
(`(b.stats.diggCount || 0) - (a.stats.diggCount || 0)`). -/
def diggGe (a b : UserVideoItem) : Prop := b.diggCount ≤ a.diggCount

instance : DecidableRel diggGe := fun a b =>
  inferInstanceAs (Decidable (b.diggCount ≤ a.diggCount))

instance : IsTotal UserVideoItem diggGe :=
  ⟨fun a b => le_total b.diggCount a.diggCount⟩

instance : IsTrans UserVideoItem diggGe :=
  ⟨fun _ _ _ h1 h2 => le_trans h2 h1⟩

/-- Body of one loop iteration after the session fetch: `none` means the
iteration hit a retryable structural failure (non-2xx, unparsable JSON, bad
payload shape, or empty `aweme_list`); `some vids` is the successful return
value — mapped, filtered of falsy ids, stably sorted by like count descending
(`Array.prototype.sort` is stable; `List.insertionSort` is its stable model)
and truncated by `slice(0, count)`. -/
def userVideosAttempt (o : ListingOutcome) (count : Nat) : Option (List UserVideoItem) :=
  match o with
  | .httpError _ => none
  | .parseError => none
  | .badPayload => none
  | .gotList items =>
    if items.isEmpty then none
    else
      let videos := (items.map parseUserVideo).filter (fun v => v.awemeId ≠ "")
      some ((List.insertionSort diggGe videos).take count)

structure FetchUserVideosResult where
  videos : List UserVideoItem
  cache : Option DouyinWebSession
  listingCalls : Nat
  handshakes : Nat
deriving DecidableEq

/-- Embedding of `fetchUserVideos` (lines 478-592): at most two attempts; on a
structural failure of attempt 0 the session cache is nulled
(`douyinWebSession = null`) and the call retried exactly once; when the retry
also fails the function returns `[]` instead of throwing (any throw is caught
by the outer `try`/`catch`, which also returns `[]`).  The two listing-call
outcomes are inputs; `now`/`cookie` feed the session model. -/
def fetchUserVideos (o0 o1 : ListingOutcome) (count : Nat)
    (cache : Option DouyinWebSession) (now : Nat) (cookie : String) :
    FetchUserVideosResult :=
  let g0 := getDouyinWebSessionStep cache now cookie
  match userVideosAttempt o0 count with
  | some vids =>
    { videos := vids, cache := g0.2.1, listingCalls := 1, handshakes := g0.2.2.toNat }
  | none =>
    let g1 := getDouyinWebSessionStep none now cookie
    match userVideosAttempt o1 count with
    | some vids =>
      { videos := vids, cache := g1.2.1, listingCalls := 2,
        handshakes := g0.2.2.toNat + g1.2.2.toNat }
    | none =>
      { videos := [], cache := g1.2.1, listingCalls := 2,
        handshakes := g0.2.2.toNat + g1.2.2.toNat }

/-! ### Caption task registry (lines 880-929) -/

inductive CaptionTaskStatus where
  | WAITING
  | RUNNING
  | SUCCESS
  | FAILURE
  | CANCELLED
deriving DecidableEq

inductive CaptionTaskStage where
  | queued
  | downloading
  | uploading
  | submitting
  | polling
  | fetching_result
  | done
  | failed
  | cancelled
deriving DecidableEq

/-- Embedding of the `CaptionTask` record (lines 892-904).  The
`abort: AbortController` handle is modelled by its observable flag
`abort.signal.aborted` (`abortRequested`), which `abort.abort()` sets. -/
structure CaptionTask where
  id : String
  status : CaptionTaskStatus
  stage : CaptionTaskStage
  message : Option String
  createdAt : Nat
  updatedAt : Nat
  transcript : Option String
  error : Option String
  publicFileUrl : Option String
  abortRequested : Bool
deriving DecidableEq

/-- The serialized view returned to HTTP callers (lines 917-929). -/
structure TaskSnapshot where
  taskId : String
  status : CaptionTaskStatus
  stage : CaptionTaskStage
  message : Option String
  transcript : Option String
  error : Option String
  publicFileUrl : Option String
  createdAt : Nat
  updatedAt : Nat
deriving DecidableEq

def snapshotCaptionTask (t : CaptionTask) : TaskSnapshot :=
  { taskId := t.id, status := t.status, stage := t.stage, message := t.message,
    transcript := t.transcript, error := t.error, publicFileUrl := t.publicFileUrl,
    createdAt := t.createdAt, updatedAt := t.updatedAt }

/-- `CAPTION_TASK_TTL_MS = 60 * 60 * 1000` (line 906). -/
def CAPTION_TASK_TTL_MS : Nat := 60 * 60 * 1000

/-- The terminal-status test on line 912. -/
def captionTaskFinished (t : CaptionTask) : Bool :=
  t.status == .SUCCESS || t.status == .FAILURE || t.status == .CANCELLED

/-- Embedding of `cleanupCaptionTasks` (lines 909-915).  The `Map` registry is
modelled as an association list (ids are fresh UUIDs, so keys are unique);
deleting while iterating every entry is a filter. -/
def cleanupCaptionTasks (now : Nat) (tasks : List (String × CaptionTask)) :
    List (String × CaptionTask) :=
  tasks.filter (fun e =>
    let tooOld := decide (now - e.2.updatedAt > CAPTION_TASK_TTL_MS)
    !(tooOld && captionTaskFinished e.2))

/-! ### `handleCaptionCreate` after metadata fetch (lines 1414-1498) -/

/-- The two metadata fields the post-fetch part of `handleCaptionCreate`
consults: `meta.caption` and `meta.playUrl` (both nullable strings). -/
structure VideoMetaLite where
  caption : Option String
  playUrl : Option String
deriving DecidableEq

inductive CreateResponse where
  | snapshot (snap : TaskSnapshot)
  | errorResp (httpStatus : Nat) (msg : String)
deriving DecidableEq

/-- JavaScript truthiness of `meta.caption && meta.caption.trim()`
(line 1417). -/
def captionReady : Option String → Bool
  | none => false
  | some s => decide (jsTrim s ≠ "")

/-- JavaScript truthiness of a nullable string (`!meta.playUrl`,
line 1433). -/
def jsStrTruthy : Option String → Bool
  | none => false
  | some s => decide (s ≠ "")

structure CreateOutcome where
  tasks : List (String × CaptionTask)
  response : CreateResponse
  adapterLaunched : Bool
deriving DecidableEq

/-- Embedding of `handleCaptionCreate` from the `fetchVideoMeta` return to the
response (lines 1414-1498).  When Douyin already supplies a caption the task is
allocated directly in `SUCCESS`/`done` carrying the trimmed caption and no
background job is launched (`adapterLaunched = false`); with no playable URL a
500 error is returned; otherwise a `WAITING`/`queued` task is registered and
the detached ASR job launched.  `Map.set` with a fresh UUID key is modelled by
cons onto the association list. -/
def handleCaptionCreateWithMeta (meta : VideoMetaLite) (taskId : String) (now : Nat)
    (tasks : List (String × CaptionTask)) : CreateOutcome :=
  if captionReady meta.caption then
    let task : CaptionTask :=
      { id := taskId, status := .SUCCESS, stage := .done,
        message := some "已获取抖音字幕",
        transcript := some (jsTrim (meta.caption.getD "")),
        createdAt := now, updatedAt := now,
        error := none, publicFileUrl := none, abortRequested := false }
    { tasks := (taskId, task) :: tasks,
      response := .snapshot (snapshotCaptionTask task), adapterLaunched := false }
  else if !jsStrTruthy meta.playUrl then
    { tasks := tasks,
      response := .errorResp 500 "无法获取视频播放地址，可能权限受限或视频不可用",
      adapterLaunched := false }
  else
    let task : CaptionTask :=
      { id := taskId, status := .WAITING, stage := .queued,
        message := some "任务已创建", transcript := none,
        createdAt := now, updatedAt := now,
        error := none, publicFileUrl := none, abortRequested := false }
    { tasks := (taskId, task) :: tasks,
      response := .snapshot (snapshotCaptionTask task), adapterLaunched := true }

/-! ### The detached background job's mutations (lines 1450-1496) and
`handleCaptionCancel` (lines 1513-1541) -/

/-- The `update` closure (lines 1451-1456): unconditionally sets
`status = 'RUNNING'` together with the reported stage/message. -/
def jobUpdate (t : CaptionTask) (stage : CaptionTaskStage) (msg : String) (now : Nat) :
    CaptionTask :=
  { t with status := .RUNNING, stage := stage, message := some msg, updatedAt := now }

/-- The success epilogue of the background job (lines 1482-1487). -/
def jobFinishSuccess (t : CaptionTask) (transcript : String) (publicUrl : Option String)
    (now : Nat) : CaptionTask :=
  { t with
    status := .SUCCESS, stage := .done, message := some "提取完成",
    transcript := some transcript, publicFileUrl := publicUrl, updatedAt := now }

/-- The `catch` epilogue of the background job (lines 1488-1495).
`errIsAbortName` models `err?.name === 'AbortError'`; `errMsg` models
`err.message`. -/
def jobFinishCatch (t : CaptionTask) (errIsAbortName : Bool) (errMsg : String)
    (now : Nat) : CaptionTask :=
  let aborted := t.abortRequested || errIsAbortName || errMsg == "已取消请求。"
  { t with
    status := (if aborted then .CANCELLED else .FAILURE)
    stage := (if aborted then .cancelled else .failed)
    error := some (if aborted then "已取消请求。" else errMsg)
    message := some (if aborted then "已取消" else "提取失败")
    updatedAt := now }

/-- The task mutation inside `handleCaptionCancel` (lines 1531-1538): only a
`RUNNING` or `WAITING` task is aborted and moved to `CANCELLED`/`cancelled`;
any other task is returned untouched. -/
def handleCaptionCancelTask (t : CaptionTask) (now : Nat) : CaptionTask :=
  if t.status = .RUNNING ∨ t.status = .WAITING then
    { t with
      abortRequested := true, status := .CANCELLED, stage := .cancelled,
      message := some "已取消", error := some "已取消请求。", updatedAt := now }
  else t

/-! ### Doubao flash adapter, response handling (lines 1201-1241) -/

/-- Fields of the parsed JSON response body that the source reads:
`apiData?.message`, `apiData?.error`, `apiData?.result?.text`. -/
structure FlashBody where
  message : Option String
  errorText : Option String
  resultText : Option String
deriving DecidableEq

/-- The flash recognize HTTP response as observed by the source: `res.ok`,
`res.status`, the three diagnostic headers, and the JSON body (`none` when
`JSON.parse` fails or the body is empty — `apiData = null`). -/
structure FlashApiResponse where
  ok : Bool
  httpStatus : Nat
  statusCodeHeader : Option String
  messageHeader : Option String
  logidHeader : Option String
  body : Option FlashBody
deriving DecidableEq

/-- Embedding of `transcribeWithDoubaoBigasrFlash` from the recognize response
onward (lines 1201-1241): non-2xx throws; then the business status
`Number(statusCode || '0')` throws when truthy and ≠ 20000000; then an empty
trimmed `result.text` throws; otherwise the transcript is returned.  (The
source appends a 1200-char tail of the raw body text to the HTTP error
message; the raw pre-parse text is not modelled, only the parsed body.) -/
def flashHandleResponse (r : FlashApiResponse) : Except String String :=
  let statusCode := r.statusCodeHeader.getD ""
  let statusMessage := r.messageHeader.getD ""
  let logid := r.logidHeader.getD ""
  if !r.ok then
    let extra := String.intercalate ", " (List.filter (fun s => s ≠ "")
      [if statusCode = "" then "" else "X-Api-Status-Code=" ++ statusCode,
       if statusMessage = "" then "" else "X-Api-Message=" ++ statusMessage,
       if logid = "" then "" else "X-Tt-Logid=" ++ logid])
    .error ("豆包语音识别失败 (HTTP " ++ toString r.httpStatus ++ ")" ++
      (if extra = "" then "" else "：" ++ extra))
  else
    let statusNum := jsNumber (jsOrStr statusCode "0")
    let failBusiness :=
      match statusNum with
      | none => false
      | some n => decide (n ≠ 0) && decide (n ≠ 20000000)
    let suffix := if logid = "" then "" else "（logid=" ++ logid ++ "）"
    if failBusiness then
      let msg := jsOrStr statusMessage
        (jsOrStr ((r.body.bind FlashBody.message).getD "")
          (jsOrStr ((r.body.bind FlashBody.errorText).getD "") "豆包语音识别失败"))
      .error (msg ++ suffix)
    else
      let transcript := jsTrim ((r.body.bind FlashBody.resultText).getD "")
      if transcript = "" then .error ("豆包语音识别完成，但返回文本为空" ++ suffix)
      else .ok transcript

example :
    flashHandleResponse
      { ok := true, httpStatus := 200, statusCodeHeader := some "45000001",
        messageHeader := some "decode audio failed", logidHeader := none,
        body := some { message := none, errorText := none, resultText := some "hi" } } =
    .error "decode audio failed" := by decide

example :
    flashHandleResponse
      { ok := true, httpStatus := 200, statusCodeHeader := none,
        messageHeader := none, logidHeader := none,
        body := some { message := none, errorText := none, resultText := some " 大家好 " } } =
    .ok "大家好" := by decide

example :
    isOkE (flashHandleResponse
      { ok := true, httpStatus := 200, statusCodeHeader := some "20000000",
        messageHeader := none, logidHeader := none,
        body := some { message := none, errorText := none, resultText := some "  " } }) =
    false := by decide

/-- A freshly created `WAITING`/`queued` task (shape of lines 1438-1446). -/
def sampleWaitingTask : CaptionTask :=
  { id := "w", status := .WAITING, stage := .queued, message := some "任务已创建",
    createdAt := 0, updatedAt := 0, transcript := none, error := none,
    publicFileUrl := none, abortRequested := false }

/-- A task that finished successfully (shape of lines 1482-1487). -/
def sampleDoneTask : CaptionTask :=
  { id := "d", status := .SUCCESS, stage := .done, message := some "提取完成",
    createdAt := 0, updatedAt := 0, transcript := some "文本", error := none,
    publicFileUrl := none, abortRequested := false }

/-! ### Helper lemmas -/

/-- `handleCaptionCancel` leaves a task in a terminal status completely
untouched: the mutation block is guarded by `RUNNING`/`WAITING`. -/
theorem cancelTask_of_finished (t : CaptionTask) (now : Nat)
    (h : captionTaskFinished t = true) : handleCaptionCancelTask t now = t := by
  have hns : ¬(t.status = .RUNNING ∨ t.status = .WAITING) := by
    cases hs : t.status <;> simp_all [captionTaskFinished]
  simp [handleCaptionCancelTask, hns]

/-- Any successful result of one listing attempt is sorted by like count
descending and has at most `count` entries. -/
theorem userVideosAttempt_sorted (o : ListingOutcome) (count : Nat)
    (l : List UserVideoItem) (h : userVideosAttempt o count = some l) :
    List.Sorted diggGe l ∧ l.length ≤ count := by
  cases o with
  | httpError s => simp [userVideosAttempt] at h
  | parseError => simp [userVideosAttempt] at h
  | badPayload => simp [userVideosAttempt] at h
  | gotList items =>
    by_cases he : items.isEmpty = true
    · simp [userVideosAttempt, he] at h
    · simp only [userVideosAttempt, if_neg he, Option.some.injEq] at h
      subst h
      refine ⟨?_, ?_⟩
      · exact List.Pairwise.sublist (List.take_sublist _ _)
          (List.sorted_insertionSort diggGe _)
      · exact List.length_take_le _ _

/-! ### Claim theorems -/

/-- Claim C1, counterexample: the spec says `assertSafeUrl` rejects link-local
hostnames and in particular that `assertSafeUrl("http://169.254.169.254/")`
raises, but `assertSafeExternalHttpUrl` accepts that URL — its hostname
blocklist is only `localhost` / `0.0.0.0` / `127.0.0.1` / `::1` / `*.local`. -/
theorem C1_counterexample :
    isOkE (assertSafeExternalHttpUrl "http://169.254.169.254/") = true := by decide

/-- Claim C1 as amended: `assertSafeExternalHttpUrl` raises on every
non-http(s) scheme and on the fixed hostname blocklist (`localhost`,
`0.0.0.0`, `127.0.0.1`, `::1`, suffix `.local`); `http://127.0.0.1/x` raises,
but `http://169.254.169.254/` (link-local) is accepted — internal addresses
outside the fixed blocklist are not rejected. -/
theorem C1_amended :
    (∀ url parts, parseJsUrl url = some parts →
      lowerStr parts.protocol ≠ "http:" → lowerStr parts.protocol ≠ "https:" →
      isOkE (assertSafeExternalHttpUrl url) = false) ∧
    (∀ url parts, parseJsUrl url = some parts →
      (lowerStr parts.hostname = "localhost" ∨ lowerStr parts.hostname = "0.0.0.0" ∨
        lowerStr parts.hostname = "127.0.0.1" ∨ lowerStr parts.hostname = "::1" ∨
        strEndsWith (lowerStr parts.hostname) ".local" = true) →
      isOkE (assertSafeExternalHttpUrl url) = false) ∧
    isOkE (assertSafeExternalHttpUrl "http://127.0.0.1/x") = false ∧
    isOkE (assertSafeExternalHttpUrl "http://169.254.169.254/") = true := by
  refine ⟨?_, ?_, by decide, by decide⟩
  · intro url parts hp h1 h2
    simp only [assertSafeExternalHttpUrl, hp]
    rw [if_pos ⟨h1, h2⟩]
    rfl
  · intro url parts hp hhost
    simp only [assertSafeExternalHttpUrl, hp]
    by_cases hpr : lowerStr parts.protocol ≠ "http:" ∧ lowerStr parts.protocol ≠ "https:"
    · rw [if_pos hpr]; rfl
    · rw [if_neg hpr, if_pos hhost]; rfl

/-- Claim C1 amended, witness: a non-http(s) scheme and a blocklisted
hostname both make the guard raise. -/
theorem C1_amended_witness :
    isOkE (assertSafeExternalHttpUrl "ftp://example.com/") = false ∧
    isOkE (assertSafeExternalHttpUrl "http://foo.local/") = false :=
  ⟨C1_amended.1 "ftp://example.com/"
      { protocol := "ftp:", hostname := "example.com", pathname := "/" }
      (by decide) (by decide) (by decide),
    C1_amended.2.1 "http://foo.local/"
      { protocol := "http:", hostname := "foo.local", pathname := "/" }
      (by decide) (by decide)⟩

/-- Claim C2, counterexample: terminal statuses are not absorbing.  A fresh
`WAITING` task cancelled via `handleCaptionCancel` reaches the terminal status
`CANCELLED`, yet the detached background job's `update` closure — which sets
`status = 'RUNNING'` unconditionally — subsequently moves it back to
`RUNNING`.  (The interleaving is reachable: the closure's `update` calls run
between event-loop suspension points, with no check of the task's current
status; e.g. cancelling right after `create` returns, before the job's first
`update('downloading', …)`.) -/
theorem C2_counterexample :
    captionTaskFinished (handleCaptionCancelTask sampleWaitingTask 5) = true ∧
    (handleCaptionCancelTask sampleWaitingTask 5).status = .CANCELLED ∧
    (jobUpdate (handleCaptionCancelTask sampleWaitingTask 5) .downloading
      "下载视频中..." 6).status = .RUNNING := by decide

/-- Claim C2 as amended: `cancel()` never changes a task already in a terminal
status (it is a complete no-op there), and the background job's epilogues only
produce terminal statuses; however the job's stage-update callback
unconditionally sets status `RUNNING` — from any status, terminal included —
so a task cancelled while the job is between suspension points transiently
reverts from `CANCELLED` to `RUNNING` (until the job's `catch` re-marks it
`CANCELLED`). -/
theorem C2_amended :
    ∀ (t : CaptionTask) (now now' : Nat) (stg : CaptionTaskStage)
      (msg tr errMsg : String) (pu : Option String) (b : Bool),
      (captionTaskFinished t = true → handleCaptionCancelTask t now = t) ∧
      (jobUpdate t stg msg now').status = .RUNNING ∧
      captionTaskFinished (jobFinishSuccess t tr pu now') = true ∧
      captionTaskFinished (jobFinishCatch t b errMsg now') = true := by
  intro t now now' stg msg tr errMsg pu b
  refine ⟨fun h => cancelTask_of_finished t now h, rfl, by simp [captionTaskFinished, jobFinishSuccess], ?_⟩
  by_cases ha : (t.abortRequested || b || (errMsg == "已取消请求。")) = true <;>
    simp [jobFinishCatch, captionTaskFinished, ha]

/-- Claim C2 amended, witness: on a concrete finished task, `cancel()` is the
identity while the stage-update callback still forces `RUNNING`. -/
theorem C2_amended_witness :
    handleCaptionCancelTask sampleDoneTask 1 = sampleDoneTask ∧
    (jobUpdate sampleDoneTask .downloading "下载视频中..." 2).status = .RUNNING :=
  ⟨(C2_amended sampleDoneTask 1 2 .downloading "下载视频中..." "tr" "err" none false).1
      (by decide),
    (C2_amended sampleDoneTask 1 2 .downloading "下载视频中..." "tr" "err" none false).2.1⟩

/-- Claim C8: `cleanupCaptionTasks` removes exactly the registry entries that
are terminal and whose age (measured from `updatedAt`) exceeds the 1-hour TTL;
a non-terminal entry survives every sweep regardless of age. -/
theorem C8_cleanup_spec :
    ∀ (now : Nat) (tasks : List (String × CaptionTask)) (e : String × CaptionTask),
      (e ∈ cleanupCaptionTasks now tasks ↔
        e ∈ tasks ∧
          ¬(captionTaskFinished e.2 = true ∧ now - e.2.updatedAt > CAPTION_TASK_TTL_MS)) ∧
      (captionTaskFinished e.2 = false → e ∈ tasks → e ∈ cleanupCaptionTasks now tasks) := by
  intro now tasks e
  have hmem : e ∈ cleanupCaptionTasks now tasks ↔
      e ∈ tasks ∧
        ¬(captionTaskFinished e.2 = true ∧ now - e.2.updatedAt > CAPTION_TASK_TTL_MS) := by
    simp only [cleanupCaptionTasks, List.mem_filter, Bool.not_eq_true',
      Bool.and_eq_false_iff, decide_eq_false_iff_not]
    constructor
    · rintro ⟨h1, h2⟩
      refine ⟨h1, ?_⟩
      rintro ⟨hfin, hold⟩
      rcases h2 with h2 | h2
      · exact h2 hold
      · rw [hfin] at h2; cases h2
    · rintro ⟨h1, h2⟩
      refine ⟨h1, ?_⟩
      by_cases hfin : captionTaskFinished e.2 = true
      · exact Or.inl (fun hold => h2 ⟨hfin, hold⟩)
      · exact Or.inr (Bool.not_eq_true _ ▸ hfin)
  refine ⟨hmem, fun hfin hin => hmem.2 ⟨hin, ?_⟩⟩
  rintro ⟨hfin', _⟩
  rw [hfin'] at hfin
  cases hfin

/-- Claim C8, witness: a terminal task older than the TTL is swept while a
`WAITING` task of the same age survives. -/
theorem C8_cleanup_spec_witness :
    ("w", sampleWaitingTask) ∈
      cleanupCaptionTasks 99999999 [("w", sampleWaitingTask), ("d", sampleDoneTask)] ∧
    ¬(("d", sampleDoneTask) ∈
      cleanupCaptionTasks 99999999 [("w", sampleWaitingTask), ("d", sampleDoneTask)]) :=
  ⟨(C8_cleanup_spec 99999999 [("w", sampleWaitingTask), ("d", sampleDoneTask)]
      ("w", sampleWaitingTask)).2 (by decide) (by decide),
    fun hmem =>
      by
        have h := (C8_cleanup_spec 99999999
          [("w", sampleWaitingTask), ("d", sampleDoneTask)] ("d", sampleDoneTask)).1.mp hmem
        exact h.2 (by decide)⟩

/-- Claim C9: `cancel(taskId)` on a non-terminal task signals the cancellation
handle, moves the task to `CANCELLED`/`cancelled`, records the canonical
cancellation error string and stamps `updatedAt`; on an already-terminal task
it mutates nothing; and a second cancel is always a no-op. -/
theorem C9_cancel_spec :
    ∀ (t : CaptionTask) (now : Nat),
      ((t.status = .WAITING ∨ t.status = .RUNNING) →
        (handleCaptionCancelTask t now).abortRequested = true ∧
        (handleCaptionCancelTask t now).status = .CANCELLED ∧
        (handleCaptionCancelTask t now).stage = .cancelled ∧
        (handleCaptionCancelTask t now).error = some "已取消请求。" ∧
        (handleCaptionCancelTask t now).updatedAt = now) ∧
      (captionTaskFinished t = true → handleCaptionCancelTask t now = t) ∧
      (∀ now', handleCaptionCancelTask (handleCaptionCancelTask t now) now' =
        handleCaptionCancelTask t now) := by
  intro t now
  refine ⟨?_, fun h => cancelTask_of_finished t now h, ?_⟩
  · intro h
    have hc : t.status = .RUNNING ∨ t.status = .WAITING := h.symm
    simp [handleCaptionCancelTask, hc]
  · intro now'
    by_cases hc : t.status = .RUNNING ∨ t.status = .WAITING
    · simp [handleCaptionCancelTask, hc]
    · simp [handleCaptionCancelTask, hc]

/-- Claim C9, witness: cancelling a concrete `WAITING` task produces the
cancelled shape. -/
theorem C9_cancel_spec_witness :
    (handleCaptionCancelTask sampleWaitingTask 5).abortRequested = true ∧
    (handleCaptionCancelTask sampleWaitingTask 5).status = .CANCELLED ∧
    (handleCaptionCancelTask sampleWaitingTask 5).stage = .cancelled ∧
    (handleCaptionCancelTask sampleWaitingTask 5).error = some "已取消请求。" ∧
    (handleCaptionCancelTask sampleWaitingTask 5).updatedAt = 5 :=
  (C9_cancel_spec sampleWaitingTask 5).1 (Or.inl (by decide))

/-- Claim C4: when the fetched metadata carries a caption that is non-empty
after trimming, `create` returns a snapshot directly in `SUCCESS`/`done`
whose transcript is the trimmed caption, registers the task in the map, and
never launches an ASR adapter job. -/
theorem C4_create_with_caption :
    ∀ (meta : VideoMetaLite) (taskId : String) (now : Nat)
      (tasks : List (String × CaptionTask)) (c : String),
      meta.caption = some c → jsTrim c ≠ "" →
      (handleCaptionCreateWithMeta meta taskId now tasks).adapterLaunched = false ∧
      (∃ snap,
        (handleCaptionCreateWithMeta meta taskId now tasks).response = .snapshot snap ∧
        snap.taskId = taskId ∧ snap.status = .SUCCESS ∧ snap.stage = .done ∧
        snap.transcript = some (jsTrim c)) ∧
      (∃ task,
        List.lookup taskId (handleCaptionCreateWithMeta meta taskId now tasks).tasks =
          some task ∧
        task.status = .SUCCESS ∧ task.stage = .done ∧
        task.transcript = some (jsTrim c)) := by
  intro meta taskId now tasks c hcap htrim
  obtain ⟨mc, mp⟩ := meta
  cases hcap
  have hready : captionReady (some c) = true := by simp [captionReady, htrim]
  refine ⟨?_, ?_, ?_⟩
  · simp [handleCaptionCreateWithMeta, hready]
  · refine ⟨snapshotCaptionTask
      { id := taskId, status := .SUCCESS, stage := .done,
        message := some "已获取抖音字幕", transcript := some (jsTrim c),
        createdAt := now, updatedAt := now, error := none, publicFileUrl := none,
        abortRequested := false }, ?_, rfl, rfl, rfl, rfl⟩
    simp [handleCaptionCreateWithMeta, hready, snapshotCaptionTask]
  · refine ⟨
      { id := taskId, status := .SUCCESS, stage := .done,
        message := some "已获取抖音字幕", transcript := some (jsTrim c),
        createdAt := now, updatedAt := now, error := none, publicFileUrl := none,
        abortRequested := false }, ?_, rfl, rfl, rfl⟩
    simp [handleCaptionCreateWithMeta, hready, List.lookup]

/-- Claim C4, witness: a concrete metadata record with caption `" 字幕文本 "`
yields an immediate `SUCCESS`/`done` snapshot carrying the trimmed caption,
with no adapter launched. -/
theorem C4_create_with_caption_witness :
    (handleCaptionCreateWithMeta ⟨some " 字幕文本 ", some "https://x/v.mp4"⟩
      "t1" 10 []).adapterLaunched = false ∧
    (∃ snap,
      (handleCaptionCreateWithMeta ⟨some " 字幕文本 ", some "https://x/v.mp4"⟩
        "t1" 10 []).response = .snapshot snap ∧
      snap.taskId = "t1" ∧ snap.status = .SUCCESS ∧ snap.stage = .done ∧
      snap.transcript = some (jsTrim " 字幕文本 ")) ∧
    (∃ task,
      List.lookup "t1" (handleCaptionCreateWithMeta ⟨some " 字幕文本 ", some "https://x/v.mp4"⟩
        "t1" 10 []).tasks = some task ∧
      task.status = .SUCCESS ∧ task.stage = .done ∧
      task.transcript = some (jsTrim " 字幕文本 ")) :=
  C4_create_with_caption ⟨some " 字幕文本 ", some "https://x/v.mp4"⟩ "t1" 10 []
    " 字幕文本 " rfl (by decide)

/-- Claim C5: `getDouyinWebSession` returns a cached session unchanged, with
no handshake, whenever the call happens before `expiresAt` minus the
60-second margin; it never returns a session past that margin; and a session
produced by a handshake expires exactly 29 minutes after issuance. -/
theorem C5_getSession_spec :
    ∀ (cache : Option DouyinWebSession) (now : Nat) (cookie : String),
      (∀ s, cache = some s → sessionValid s now = true →
        getDouyinWebSessionStep cache now cookie = (s, cache, false)) ∧
      sessionValid (getDouyinWebSessionStep cache now cookie).1 now = true ∧
      ((getDouyinWebSessionStep cache now cookie).2.2 = true →
        (getDouyinWebSessionStep cache now cookie).1.expiresAt = now + 29 * 60 * 1000) := by
  intro cache now cookie
  have hfresh : sessionValid (refreshDouyinWebSession now cookie) now = true := by
    simp [sessionValid, refreshDouyinWebSession, SESSION_TTL_MS, SESSION_MARGIN_MS]
  cases cache with
  | none =>
    have hstep : getDouyinWebSessionStep none now cookie =
        (refreshDouyinWebSession now cookie, some (refreshDouyinWebSession now cookie),
          true) := rfl
    refine ⟨?_, ?_, ?_⟩
    · intro s h hv'
      cases h
    · rw [hstep]
      exact hfresh
    · intro _
      rw [hstep]
      rfl
  | some s =>
    by_cases hv : sessionValid s now = true
    · have hstep : getDouyinWebSessionStep (some s) now cookie = (s, some s, false) := by
        simp only [getDouyinWebSessionStep, if_pos hv]
      refine ⟨?_, ?_, ?_⟩
      · intro s' h hv'
        cases h
        exact hstep
      · rw [hstep]
        exact hv
      · intro habs
        rw [hstep] at habs
        cases habs
    · have hstep : getDouyinWebSessionStep (some s) now cookie =
          (refreshDouyinWebSession now cookie, some (refreshDouyinWebSession now cookie),
            true) := by
        simp only [getDouyinWebSessionStep, if_neg hv]
      refine ⟨?_, ?_, ?_⟩
      · intro s' h hv'
        cases h
        exact absurd hv' hv
      · rw [hstep]
        exact hfresh
      · intro _
        rw [hstep]
        rfl

/-- Claim C5, witness: a cached session well inside its validity window is
returned as-is with no handshake. -/
theorem C5_getSession_spec_witness :
    getDouyinWebSessionStep (some { cookie := "c", expiresAt := 2000000 }) 0 "k" =
      ({ cookie := "c", expiresAt := 2000000 }, some { cookie := "c", expiresAt := 2000000 },
        false) :=
  (C5_getSession_spec (some { cookie := "c", expiresAt := 2000000 }) 0 "k").1
    { cookie := "c", expiresAt := 2000000 } rfl (by decide)

/-- Claim C6: any number `n ≥ 1` of concurrent `getSession()` calls arriving
against a cold cache, all before the in-flight refresh resolves, trigger
exactly one handshake: the first arrival installs the shared lock (starting
the single handshake) and every later arrival joins it. -/
theorem C6_single_flight :
    ∀ (now n : Nat), 1 ≤ n →
      ((sfArrive now)^[n] sfCold).handshakes = 1 ∧
      ((sfArrive now)^[n] sfCold).lockHeld = true := by
  intro now n hn
  obtain ⟨m, rfl⟩ : ∃ m, n = m + 1 := ⟨n - 1, by omega⟩
  have h1 : sfArrive now sfCold =
      { session := none, lockHeld := true, handshakes := 1 } := rfl
  have hfix : sfArrive now { session := none, lockHeld := true, handshakes := 1 } =
      { session := none, lockHeld := true, handshakes := 1 } := rfl
  rw [Function.iterate_succ_apply, h1, Function.iterate_fixed hfix]
  exact ⟨rfl, rfl⟩

/-- Claim C6, witness: three concurrent cold-cache arrivals produce exactly
one handshake. -/
theorem C6_single_flight_witness :
    1 ≤ 3 ∧ ((sfArrive 7)^[3] sfCold).handshakes = 1 ∧
      ((sfArrive 7)^[3] sfCold).lockHeld = true :=
  ⟨by decide, C6_single_flight 7 3 (by decide)⟩

/-- Claim C3: an HTTP-ok flash response whose `X-Api-Status-Code` header is
present and parses to a nonzero value different from 20000000 is an error, not
a transcript; and whenever the response is HTTP-ok but the body's
`result.text` is empty after trimming, the call also errors (this covers the
business-success case in particular). -/
theorem C3_flash_business_failure :
    (∀ (r : FlashApiResponse) (s : String) (n : Int),
      r.ok = true → r.statusCodeHeader = some s → jsNumber s = some n →
      n ≠ 0 → n ≠ 20000000 →
      isOkE (flashHandleResponse r) = false) ∧
    (∀ r : FlashApiResponse, r.ok = true →
      jsTrim ((r.body.bind FlashBody.resultText).getD "") = "" →
      isOkE (flashHandleResponse r) = false) := by
  constructor
  · intro r s n hok hsc hn hn0 hn2
    have hs0 : s ≠ "" := by
      intro he
      subst he
      rw [show jsNumber "" = some 0 from rfl] at hn
      injection hn with h
      exact hn0 h.symm
    simp only [flashHandleResponse, hok, Bool.not_true, Bool.false_eq_true, if_false,
      hsc, Option.getD_some, jsOrStr, if_neg hs0, hn]
    simp [isOkE, hn0, hn2]
  · intro r hok hempty
    simp only [flashHandleResponse, hok, Bool.not_true, Bool.false_eq_true, if_false]
    split
    · rfl
    · simp [hempty, isOkE]

/-- Claim C3, witness: a concrete HTTP-200 response with business status
45000001 errors, and a concrete business-success response with a blank
transcript errors. -/
theorem C3_flash_business_failure_witness :
    isOkE (flashHandleResponse
      { ok := true, httpStatus := 200, statusCodeHeader := some "45000001",
        messageHeader := some "decode failed", logidHeader := some "lg",
        body := some { message := none, errorText := none, resultText := some "hi" } }) =
      false ∧
    isOkE (flashHandleResponse
      { ok := true, httpStatus := 200, statusCodeHeader := some "20000000",
        messageHeader := none, logidHeader := none,
        body := some { message := none, errorText := none, resultText := some " " } }) =
      false :=
  ⟨C3_flash_business_failure.1
      { ok := true, httpStatus := 200, statusCodeHeader := some "45000001",
        messageHeader := some "decode failed", logidHeader := some "lg",
        body := some { message := none, errorText := none, resultText := some "hi" } }
      "45000001" 45000001 rfl rfl (by decide) (by decide) (by decide),
    C3_flash_business_failure.2
      { ok := true, httpStatus := 200, statusCodeHeader := some "20000000",
        messageHeader := none, logidHeader := none,
        body := some { message := none, errorText := none, resultText := some " " } }
      rfl (by decide)⟩

/-- Claim C10: on an HTTP-ok flash response whose `X-Api-Status-Code` header
is absent (or parses to 0), the missing header is never itself an error: the
call succeeds exactly when `result.text` is non-empty after trimming, and then
returns that trimmed text. -/
theorem C10_flash_header_absent :
    ∀ r : FlashApiResponse, r.ok = true →
      (r.statusCodeHeader = none ∨
        (∃ s, r.statusCodeHeader = some s ∧ jsNumber s = some 0)) →
      ((isOkE (flashHandleResponse r) = true ↔
          jsTrim ((r.body.bind FlashBody.resultText).getD "") ≠ "") ∧
        (jsTrim ((r.body.bind FlashBody.resultText).getD "") ≠ "" →
          flashHandleResponse r =
            .ok (jsTrim ((r.body.bind FlashBody.resultText).getD "")))) := by
  intro r hok hsn
  have hnum : jsNumber (jsOrStr (r.statusCodeHeader.getD "") "0") = some 0 := by
    rcases hsn with hnone | ⟨s, hs, h0⟩
    · rw [hnone]
      rfl
    · rw [hs]
      by_cases hse : s = ""
      · subst hse
        rfl
      · simpa [jsOrStr, hse] using h0
  have hred : flashHandleResponse r =
      (if jsTrim ((r.body.bind FlashBody.resultText).getD "") = "" then
        .error ("豆包语音识别完成，但返回文本为空" ++
          (if r.logidHeader.getD "" = "" then ""
            else "（logid=" ++ r.logidHeader.getD "" ++ "）"))
      else .ok (jsTrim ((r.body.bind FlashBody.resultText).getD ""))) := by
    simp only [flashHandleResponse, hok, Bool.not_true, Bool.false_eq_true, if_false, hnum]
    simp
  rw [hred]
  by_cases he : jsTrim ((r.body.bind FlashBody.resultText).getD "") = ""
  · rw [if_pos he]
    constructor
    · constructor
      · intro habs
        cases habs
      · intro hne
        exact absurd he hne
    · intro hne
      exact absurd he hne
  · rw [if_neg he]
    exact ⟨⟨fun _ => he, fun _ => rfl⟩, fun _ => rfl⟩

/-- Claim C10, witness: an HTTP-200 response with no business-status header
and transcript `" 哈啰 "` succeeds with the trimmed text. -/
theorem C10_flash_header_absent_witness :
    flashHandleResponse
      { ok := true, httpStatus := 200, statusCodeHeader := none,
        messageHeader := none, logidHeader := none,
        body := some { message := none, errorText := none, resultText := some " 哈啰 " } } =
      .ok (jsTrim " 哈啰 ") :=
  (C10_flash_header_absent
    { ok := true, httpStatus := 200, statusCodeHeader := none,
      messageHeader := none, logidHeader := none,
      body := some { message := none, errorText := none, resultText := some " 哈啰 " } }
    rfl (Or.inl rfl)).2 (by decide)

/-- Claim C7: `fetchUserVideos` never raises (it always produces a plain
list); the result is always sorted by like count descending with at most
`count` entries; a successful first attempt makes exactly one listing call and
returns its processed list; a structurally failed first attempt forces exactly
one retry (two listing calls total) after invalidating the session cache — a
fresh handshake runs even when the cached session was still valid — and when
the retry also fails the result is the empty list. -/
theorem C7_fetchUserVideos_spec :
    ∀ (o0 o1 : ListingOutcome) (count : Nat) (cache : Option DouyinWebSession)
      (now : Nat) (cookie : String),
      List.Sorted diggGe (fetchUserVideos o0 o1 count cache now cookie).videos ∧
      (fetchUserVideos o0 o1 count cache now cookie).videos.length ≤ count ∧
      (∀ l, userVideosAttempt o0 count = some l →
        (fetchUserVideos o0 o1 count cache now cookie).listingCalls = 1 ∧
        (fetchUserVideos o0 o1 count cache now cookie).videos = l) ∧
      (userVideosAttempt o0 count = none →
        (fetchUserVideos o0 o1 count cache now cookie).listingCalls = 2 ∧
        (userVideosAttempt o1 count = none →
          (fetchUserVideos o0 o1 count cache now cookie).videos = []) ∧
        (∀ l, userVideosAttempt o1 count = some l →
          (fetchUserVideos o0 o1 count cache now cookie).videos = l) ∧
        (∀ s, cache = some s → sessionValid s now = true →
          (fetchUserVideos o0 o1 count cache now cookie).handshakes = 1)) := by
  intro o0 o1 count cache now cookie
  have hg1 : getDouyinWebSessionStep none now cookie =
      (refreshDouyinWebSession now cookie, some (refreshDouyinWebSession now cookie),
        true) := rfl
  cases h0 : userVideosAttempt o0 count with
  | some l0 =>
    have hs := userVideosAttempt_sorted o0 count l0 h0
    have hfv : fetchUserVideos o0 o1 count cache now cookie =
        { videos := l0, cache := (getDouyinWebSessionStep cache now cookie).2.1,
          listingCalls := 1,
          handshakes := (getDouyinWebSessionStep cache now cookie).2.2.toNat } := by
      simp only [fetchUserVideos, h0]
    rw [hfv]
    refine ⟨hs.1, hs.2, ?_, ?_⟩
    · intro l hl
      injection hl with hl
      exact ⟨rfl, hl⟩
    · intro habs
      exact Option.noConfusion habs
  | none =>
    cases h1 : userVideosAttempt o1 count with
    | some l1 =>
      have hs := userVideosAttempt_sorted o1 count l1 h1
      have hfv : fetchUserVideos o0 o1 count cache now cookie =
          { videos := l1, cache := (getDouyinWebSessionStep none now cookie).2.1,
            listingCalls := 2,
            handshakes := (getDouyinWebSessionStep cache now cookie).2.2.toNat +
              (getDouyinWebSessionStep none now cookie).2.2.toNat } := by
        simp only [fetchUserVideos, h0, h1]
      rw [hfv]
      refine ⟨hs.1, hs.2, ?_, ?_⟩
      · intro l hl
        exact Option.noConfusion hl
      · intro _
        refine ⟨rfl, ?_, ?_, ?_⟩
        · intro habs
          exact Option.noConfusion habs
        · intro l hl
          rw [Option.some.injEq] at hl
          exact hl
        · intro s hc hv
          subst hc
          have hg0 : getDouyinWebSessionStep (some s) now cookie = (s, some s, false) := by
            simp only [getDouyinWebSessionStep, if_pos hv]
          rw [hg0, hg1]
          rfl
    | none =>
      have hfv : fetchUserVideos o0 o1 count cache now cookie =
          { videos := [], cache := (getDouyinWebSessionStep none now cookie).2.1,
            listingCalls := 2,
            handshakes := (getDouyinWebSessionStep cache now cookie).2.2.toNat +
              (getDouyinWebSessionStep none now cookie).2.2.toNat } := by
        simp only [fetchUserVideos, h0, h1]
      rw [hfv]
      refine ⟨List.sorted_nil, by simp, ?_, ?_⟩
      · intro l hl
        exact Option.noConfusion hl
      · intro _
        refine ⟨rfl, fun _ => rfl, ?_, ?_⟩
        · intro l hl
          exact Option.noConfusion hl
        · intro s hc hv
          subst hc
          have hg0 : getDouyinWebSessionStep (some s) now cookie = (s, some s, false) := by
            simp only [getDouyinWebSessionStep, if_pos hv]
          rw [hg0, hg1]
          rfl

/-- Claim C7, witness: a failed first attempt (HTTP 403) followed by a
successful retry makes two listing calls and returns the retry's list sorted
by like count descending, the falsy-id entry filtered out and truncated to
`count = 2`. -/
theorem C7_fetchUserVideos_spec_witness :
    (fetchUserVideos (.httpError 403)
      (.gotList [{ awemeId := "a", diggCount := some 5 },
        { awemeId := "b", diggCount := some 9 },
        { awemeId := "", diggCount := some 100 },
        { awemeId := "c", diggCount := none }])
      2 none 0 "ck").listingCalls = 2 ∧
    (fetchUserVideos (.httpError 403)
      (.gotList [{ awemeId := "a", diggCount := some 5 },
        { awemeId := "b", diggCount := some 9 },
        { awemeId := "", diggCount := some 100 },
        { awemeId := "c", diggCount := none }])
      2 none 0 "ck").videos =
      [{ awemeId := "b", diggCount := 9 }, { awemeId := "a", diggCount := 5 }] :=
  ⟨((C7_fetchUserVideos_spec (.httpError 403)
      (.gotList [{ awemeId := "a", diggCount := some 5 },
        { awemeId := "b", diggCount := some 9 },
        { awemeId := "", diggCount := some 100 },
        { awemeId := "c", diggCount := none }])
      2 none 0 "ck").2.2.2 (by decide)).1,
    ((C7_fetchUserVideos_spec (.httpError 403)
      (.gotList [{ awemeId := "a", diggCount := some 5 },
        { awemeId := "b", diggCount := some 9 },
        { awemeId := "", diggCount := some 100 },
        { awemeId := "c", diggCount := none }])
      2 none 0 "ck").2.2.2 (by decide)).2.2.1
      [{ awemeId := "b", diggCount := 9 }, { awemeId := "a", diggCount := 5 }]
      (by decide)⟩

end Douying
